import Mathlib

/-!
Shallow embedding of the belaUI session controller (src/belaUI.js).

The daemon's shared mutable state (the config document, the in-memory SSH
password hash, the network-interface table, persistent notifications, the
remote-tunnel flags) is modelled as explicit values; the side effects the
claims talk about (file writes, process signals, notification frames,
status replies) are recorded in an ordered trace of `Effect` values, in
the order the corresponding statements run in the source.
-/

namespace BelaUI

/-! ### Generic association lists (JS objects keyed by string) -/

/-- First-match lookup in an association list, as JS property access. -/
def alookup {α : Type} (k : String) : List (String × α) → Option α
  | [] => none
  | (k2, v) :: rest => if k2 = k then some v else alookup k rest

/-- Insert-or-replace, as JS property assignment: the existing entry keeps
its position, a new key is appended (JS object insertion order). -/
def upsert {α : Type} (k : String) (v : α) : List (String × α) → List (String × α)
  | [] => [(k, v)]
  | (k2, v2) :: rest =>
    if k2 = k then (k2, v) :: rest else (k2, v2) :: upsert k v rest

/-! ### The config document

The keys belaUI.js ever reads or writes on the `config` object. A `none`
field models an absent (JS `undefined`) property; `JSON.stringify` omits
such properties, which `serializeConfig` mirrors. -/

structure Config where
  password_hash : Option String := none
  remote_key : Option String := none
  delay : Option Int := none
  pipeline : Option String := none
  max_br : Option Int := none
  srt_latency : Option Int := none
  srt_streamid : Option String := none
  srtla_addr : Option String := none
  srtla_port : Option Int := none
  ssh_pass : Option String := none
  password : Option String := none
  ssh_pass_hash : Option String := none
deriving Repr, DecidableEq

/-- One serialized JSON property for an optional string field. -/
def optStr (k : String) : Option String → List (String × String)
  | none => []
  | some v => [(k, v)]

/-- One serialized JSON property for an optional integer field. -/
def optInt (k : String) : Option Int → List (String × String)
  | none => []
  | some v => [(k, toString v)]

/-- The JSON document `JSON.stringify(config)` produces: present properties
only, as key/value pairs. -/
def serializeConfig (c : Config) : List (String × String) :=
  optStr "password_hash" c.password_hash ++
  optStr "remote_key" c.remote_key ++
  optInt "delay" c.delay ++
  optStr "pipeline" c.pipeline ++
  optInt "max_br" c.max_br ++
  optInt "srt_latency" c.srt_latency ++
  optStr "srt_streamid" c.srt_streamid ++
  optStr "srtla_addr" c.srtla_addr ++
  optInt "srtla_port" c.srtla_port ++
  optStr "ssh_pass" c.ssh_pass ++
  optStr "password" c.password ++
  optStr "ssh_pass_hash" c.ssh_pass_hash

/-- Loading config.json (belaUI.js lines 100-108): the on-disk document is
parsed, `ssh_pass_hash` is copied to the separate `sshPasswordHash`
variable and deleted from the in-memory config. -/
def loadConfig (disk : Config) : Config × Option String :=
  ({ disk with ssh_pass_hash := none }, disk.ssh_pass_hash)

/-- `saveConfig()` (belaUI.js lines 121-126): temporarily re-attach
`ssh_pass_hash`, serialize, then delete it again. Returns the document
written to disk and the in-memory config afterwards. -/
def saveConfig (c : Config) (sshPasswordHash : Option String) :
    List (String × String) × Config :=
  let cw := { c with ssh_pass_hash := sshPasswordHash }
  (serializeConfig cw, { cw with ssh_pass_hash := none })

/-- Cost parameter for password hashing (belaUI.js line 34). -/
def BCRYPT_ROUNDS : Nat := 10

/-- Stand-in for the external `bcrypt.hashSync` primitive: an executable
digest recording the cost factor. The claims only use that the stored
hash is the output of this primitive at cost `rounds`, never its
cryptographic properties. -/
def bcryptHashSync (password : String) (rounds : Nat) : String :=
  "2b." ++ toString rounds ++ "." ++
    toString (password.foldl (fun a c => a * 31 + c.toNat) 7)

/-! ### Observable side effects, in program order -/

inductive Effect where
  /-- `fs.writeFileSync(CONFIG_FILE, ...)` inside `saveConfig`. -/
  | configWrite (doc : List (String × String))
  /-- `fs.writeFileSync(setup.bitrate_file, ...)`. -/
  | writeBitrateFile (content : String)
  /-- `fs.writeFileSync(setup.ips_file, ...)`. -/
  | writeIpsFile (content : String)
  /-- `spawnSync("killall", [sig, process])`. -/
  | signal (process : String) (sig : String)
  /-- `notificationSend` frame delivered to one connection. -/
  | notifyConn (conn : Nat) (name ntype msg : String) (duration : Nat)
  /-- `notificationSend` frame broadcast to all authenticated clients. -/
  | notifyBroadcast (name ntype msg : String) (duration : Nat)
  /-- `conn.send(buildMsg('status', ...))` carrying `is_streaming`. -/
  | sendIsStreaming (conn : Nat) (streaming : Bool)
  /-- `broadcastMsgExcept(conn, 'config', config)`. -/
  | broadcastConfigExcept (conn : Nat) (doc : List (String × String))
  /-- `conn.send(buildMsg('netif', netif))`. -/
  | sendNetif (conn : Nat)
  /-- `conn.send(buildMsg('auth', {success}))`. -/
  | sendAuth (conn : Nat) (success : Bool)
  /-- `sendInitialStatus(conn)` after a successful auth. -/
  | sendInitialStatus (conn : Nat)
  /-- `broadcastMsgLocal('status', {remote: true})`. -/
  | broadcastRemoteOk
  /-- `broadcastMsgLocal('status', {remote: {error: kind}})`. -/
  | broadcastRemoteError (kind : String)
  /-- `sendInitialStatus(remoteWs)` on successful tunnel auth. -/
  | sendInitialStatusRemote
  /-- `conn.terminate()` on the tunnel socket. -/
  | terminateRemote
  /-- `setTimeout(remoteConnect, ms)`. -/
  | scheduleReconnect (ms : Nat)
deriving Repr, DecidableEq

/-! ### Daemon state touched by the streaming supervisor -/

structure Daemon where
  config : Config
  sshPasswordHash : Option String
  effects : List Effect
deriving Repr, DecidableEq

/-- `setBitrate(params)` (belaUI.js lines 1204-1219). `maxBr` is
`params.max_br` (`none` for an absent property). Returns the JS return
value and the updated daemon state with the effects appended in source
order: config persist, bitrate-file write, HUP to belacoder. -/
def setBitrate (maxBr : Option Int) (st : Daemon) : Option Int × Daemon :=
  match maxBr with
  | none => (none, st)
  | some b =>
    if b < 300 ∨ b > 12000 then (none, st)
    else
      let c := { st.config with max_br := some b }
      let saved := saveConfig c st.sshPasswordHash
      let content := toString (300 * 1000 : Int) ++ "\n" ++ toString (b * 1000) ++ "\n"
      (some b,
       { config := saved.2
         sshPasswordHash := st.sshPasswordHash
         effects := st.effects ++
           [Effect.configWrite saved.1, Effect.writeBitrateFile content,
            Effect.signal "belacoder" "SIGHUP"] })

/-- The parameters of a `start` request (belaUI.js line 1320), each
`none` when the property is absent from the message. -/
structure StartParams where
  delay : Option Int := none
  pipeline : Option String := none
  max_br : Option Int := none
  srt_latency : Option Int := none
  srt_streamid : Option String := none
  srtla_addr : Option String := none
  srtla_port : Option Int := none
deriving Repr, DecidableEq

/-- External collaborators of `updateConfig`: the pipeline tree
(`searchPipelines`, returning the file path for a known id) and the DNS
resolver (`dns.lookup` succeeding or failing on a host name). -/
structure Env where
  pipelines : String → Option String
  dnsOk : String → Bool

/-- `startError(conn, msg)` (belaUI.js lines 1189-1202): a 10-second
`start_error` notification to the connection followed by a
`{status: {is_streaming: false}}` reply. -/
def startError (conn : Nat) (msg : String) (st : Daemon) : Daemon :=
  { st with effects := st.effects ++
      [Effect.notifyConn conn "start_error" "error" msg 10,
       Effect.sendIsStreaming conn false] }

/-- `updateConfig(conn, params, callback)` (belaUI.js lines 1221-1279),
checks in source order. Returns the pipeline path handed to the callback
on success, `none` on any failure. Note that the bitrate check invokes
`setBitrate`, whose effects happen before the later checks run. -/
def updateConfig (env : Env) (conn : Nat) (p : StartParams) (st : Daemon) :
    Option String × Daemon :=
  match p.delay with
  | none => (none, startError conn "audio delay not specified" st)
  | some d =>
    if d < -2000 ∨ d > 2000 then
      (none, startError conn ("invalid delay " ++ toString d) st)
    else
      match p.pipeline with
      | none => (none, startError conn "pipeline not specified" st)
      | some pl =>
        match env.pipelines pl with
        | none => (none, startError conn "pipeline not found" st)
        | some pipelinePath =>
          match setBitrate p.max_br st with
          | (none, st1) => (none, startError conn "invalid bitrate range: " st1)
          | (some _, st1) =>
            match p.srt_latency with
            | none => (none, startError conn "SRT latency not specified" st1)
            | some lat =>
              if lat < 100 ∨ lat > 10000 then
                (none, startError conn
                  ("invalid SRT latency " ++ toString lat ++ " ms") st1)
              else
                match p.srt_streamid with
                | none => (none, startError conn "SRT streamid not specified" st1)
                | some _ =>
                  match p.srtla_addr with
                  | none => (none, startError conn "SRTLA address not specified" st1)
                  | some addr =>
                    match p.srtla_port with
                    | none => (none, startError conn "SRTLA port not specified" st1)
                    | some port =>
                      if port ≤ 0 ∨ port > 65535 then
                        (none, startError conn
                          ("invalid SRTLA port " ++ toString port) st1)
                      else if env.dnsOk addr then
                        let c := { st1.config with
                                   delay := p.delay
                                   pipeline := p.pipeline
                                   max_br := p.max_br
                                   srt_latency := p.srt_latency
                                   srt_streamid := p.srt_streamid
                                   srtla_addr := p.srtla_addr
                                   srtla_port := p.srtla_port }
                        let saved := saveConfig c st1.sshPasswordHash
                        (some pipelinePath,
                         { st1 with
                           config := saved.2
                           effects := st1.effects ++
                             [Effect.configWrite saved.1,
                              Effect.broadcastConfigExcept conn
                                (serializeConfig saved.2)] })
                      else
                        (none, startError conn
                          ("failed to resolve SRTLA addr " ++ addr) st1)

/-- A `start` request that fails at one of the first three checks of
`updateConfig` — delay, pipeline, or the `setBitrate` range check —
before `setBitrate` has performed any writes. -/
def startEarlyFailure (env : Env) (p : StartParams) : Prop :=
  p.delay = none ∨
  (∃ d, p.delay = some d ∧ (d < -2000 ∨ d > 2000)) ∨
  p.pipeline = none ∨
  (∃ pl, p.pipeline = some pl ∧ env.pipelines pl = none) ∨
  p.max_br = none ∨
  (∃ b, p.max_br = some b ∧ (b < 300 ∨ b > 12000))

/-- Concrete environment fixture: one known pipeline id `"p0"` and a DNS
resolver that succeeds on every name. -/
def envEx : Env :=
  ⟨fun s => if s = "p0" then some "/pipelines/generic/p0" else none,
   fun _ => true⟩

/-- Concrete `start` request fixture that passes the delay, pipeline and
bitrate checks but fails SRT-latency validation (50 is below 100). -/
def paramsLateFail : StartParams :=
  ⟨some 0, some "p0", some 5000, some 50, some "", some "srtla.example.org",
   some 5000⟩

/-- Concrete daemon-state fixture: empty config, no SSH hash, no effects. -/
def stEx : Daemon := ⟨{}, none, []⟩

/-! ### Network interface table -/

structure NetifEntry where
  ip : String
  txb : Int
  tp : Int
  enabled : Bool
deriving Repr, DecidableEq

/-- The `netif` table: a JS object keyed by interface name. -/
abbrev Netif := List (String × NetifEntry)

/-- `countActiveNetif()` (belaUI.js lines 315-321). -/
def countActiveNetif (t : Netif) : Nat :=
  (t.filter (fun e => e.2.enabled)).length

/-- In-place mutation `int.enabled = v` of the entry named `name`. -/
def setNetifEnabled (name : String) (v : Bool) (t : Netif) : Netif :=
  t.map (fun e => (e.1, if e.1 = name then { e.2 with enabled := v } else e.2))

/-- `genSrtlaIpList()` (belaUI.js lines 1289-1302): the newline-separated
addresses of the enabled interfaces, and their count. -/
def genSrtlaIpList (t : Netif) : String × Nat :=
  t.foldl (fun acc e =>
    if e.2.enabled then (acc.1 ++ e.2.ip ++ "\n", acc.2 + 1) else acc) ("", 0)

/-- `handleNetif(conn, msg)` (belaUI.js lines 323-341) for a message
`{name, ip, enabled}`; `enabled = none` models any value that is neither
`true` nor `false`. Returns the new table and the emitted effects. -/
def handleNetif (isStreaming : Bool) (conn : Nat) (t : Netif)
    (name ip : String) (enabled : Option Bool) : Netif × List Effect :=
  match alookup name t with
  | none => (t, [])
  | some int =>
    if int.ip ≠ ip then (t, [])
    else
      match enabled with
      | none => (t, [Effect.sendNetif conn])
      | some en =>
        if en = false ∧ int.enabled = true ∧ countActiveNetif t = 1 then
          (t, [Effect.notifyConn conn "netif_disable_all" "error"
                 "Can\x27t disable all networks" 10,
               Effect.sendNetif conn])
        else
          let t2 := setNetifEnabled name en t
          (t2,
           (if isStreaming then
              [Effect.writeIpsFile (genSrtlaIpList t2).1,
               Effect.signal "srtla_send" "SIGHUP"]
            else []) ++ [Effect.sendNetif conn])

/-- One interface stanza of the `ifconfig` output after the parsing and
filtering in `updateNetif` (belaUI.js lines 261-296): name, IPv4 address
and cumulative transmitted bytes. -/
structure Obs where
  name : String
  ip : String
  txb : Int
deriving Repr, DecidableEq

/-- The per-interface entry `updateNetif` builds: throughput is the raw
difference of the tx counters when the interface was present at the
previous poll and 0 otherwise; the enable flag is carried over from the
previous table and defaults to true. -/
def updateNetifEntry (prev : Netif) (o : Obs) : NetifEntry :=
  { ip := o.ip
    txb := o.txb
    tp :=
      match alookup o.name prev with
      | some e => o.txb - e.txb
      | none => 0
    enabled :=
      match alookup o.name prev with
      | some e => e.enabled
      | none => true }

/-- The `newints` object at the end of the `updateNetif` poll loop:
entries of the previous table that are no longer observed are dropped. -/
def updateNetifTable (prev : Netif) (obs : List Obs) : Netif :=
  obs.foldl (fun acc o => upsert o.name (updateNetifEntry prev o) acc) []

/-! ### Authentication -/

/-- The `{token}` branch of `tryAuth` (belaUI.js lines 1719-1742) together
with `connAuth`: returns whether the connection ends up authenticated and
the frames sent to it. -/
def tryAuthToken (passwordHash : Option String)
    (tempTokens persistentTokens : List String) (conn : Nat) (token : String) :
    Bool × List Effect :=
  match passwordHash with
  | none => (false, [Effect.sendAuth conn false])
  | some _ =>
    if token ∈ tempTokens ∨ token ∈ persistentTokens then
      (true, [Effect.sendAuth conn true, Effect.sendInitialStatus conn])
    else
      (false, [Effect.sendAuth conn false])

/-- `setPassword(conn, password, isRemote)` (belaUI.js lines 1666-1678).
Returns the in-memory config afterwards and the effects. -/
def setPassword (connIsAuthed isRemote : Bool) (conn : Nat) (password : String)
    (c : Config) (sshPasswordHash : Option String) : Config × List Effect :=
  if connIsAuthed = true ∨ (isRemote = false ∧ c.password_hash = none) then
    if password.length < 8 then
      (c, [Effect.notifyConn conn "belaui_pass_length" "error"
             "Minimum password length: 8 characters" 10])
    else
      let c1 := { c with
                  password_hash := some (bcryptHashSync password BCRYPT_ROUNDS)
                  password := none }
      let saved := saveConfig c1 sshPasswordHash
      (saved.2, [Effect.configWrite saved.1])
  else
    (c, [])

/-! ### Notification bus -/

structure PNotif where
  name : String
  ntype : String
  msg : String
  is_dismissable : Bool
  is_persistent : Bool
  duration : Nat
  updated : Nat
  last_sent : Option Nat
deriving Repr, DecidableEq

/-- The `persistentNotifications` map. -/
abbrev PNMap := List (String × PNotif)

/-- `notificationSend` (belaUI.js lines 1058-1105) at clock value `now`
(all `getms()` calls inside one invocation read the same tick). Returns
the persistent map afterwards, whether an outbound frame was emitted, and
the emitted effects. -/
def notificationSend (now : Nat) (pns : PNMap) (conn : Option Nat)
    (name ntype msg : String) (duration : Nat)
    (isPersistent isDismissable : Bool) : PNMap × Bool × List Effect :=
  if isPersistent = true ∧ conn ≠ none then (pns, false, [])
  else
    let doSend :=
      if isPersistent = true then
        match alookup name pns with
        | some pn =>
          match pn.last_sent with
          | some ls => if ls + 1000 > now then false else true
          | none => true
        | none => true
      else true
    let pns2 :=
      if isPersistent = true then
        let prevLast :=
          match alookup name pns with
          | some pn => pn.last_sent
          | none => none
        upsert name
          { name := name, ntype := ntype, msg := msg
            is_dismissable := isDismissable, is_persistent := isPersistent
            duration := duration, updated := now
            last_sent := if doSend then some now else prevLast } pns
      else pns
    if doSend then
      match conn with
      | some c => (pns2, true, [Effect.notifyConn c name ntype msg duration])
      | none => (pns2, true, [Effect.notifyBroadcast name ntype msg duration])
    else
      (pns2, false, [])

/-! ### Remote tunnel -/

structure RemoteState where
  isAuthed : Bool
  statusHandled : Bool
deriving Repr, DecidableEq

/-- The `auth/encoder` case of `handleRemote` (belaUI.js lines 918-936). -/
def handleRemoteAuthEncoder (s : RemoteState) (ok : Bool) :
    RemoteState × List Effect :=
  if ok = true then
    ({ s with isAuthed := true },
     [Effect.sendInitialStatusRemote, Effect.broadcastRemoteOk])
  else
    ({ s with statusHandled := true },
     [Effect.broadcastRemoteError "key", Effect.terminateRemote])

/-- `remoteClose` (belaUI.js lines 976-985): schedule a reconnect in 1 s,
then broadcast the network error unless `remoteStatusHandled` is set. -/
def remoteClose (s : RemoteState) : RemoteState × List Effect :=
  (s,
   [Effect.scheduleReconnect 1000] ++
     (if s.statusHandled = true then []
      else [Effect.broadcastRemoteError "network"]))

/-! ### Helper lemmas -/

theorem alookup_upsert_self {α : Type} (k : String) (v : α) (t : List (String × α)) :
    alookup k (upsert k v t) = some v := by
  induction t with
  | nil => simp [alookup, upsert]
  | cons hd tl ih =>
    by_cases h : hd.1 = k
    · simp [alookup, upsert, h]
    · simp [alookup, upsert, h, ih]

theorem alookup_upsert_ne {α : Type} (k k2 : String) (v : α) (t : List (String × α))
    (h : k2 ≠ k) : alookup k (upsert k2 v t) = alookup k t := by
  induction t with
  | nil => simp [alookup, upsert, h]
  | cons hd tl ih =>
    obtain ⟨k3, v3⟩ := hd
    by_cases h2 : k3 = k2
    · subst h2
      simp [alookup, upsert, h]
    · by_cases h3 : k3 = k
      · subst h3
        simp [alookup, upsert, Ne.symm h, h2]
      · simp [alookup, upsert, h2, h3, ih]

theorem alookup_append {α : Type} (k : String) (xs ys : List (String × α)) :
    alookup k (xs ++ ys) =
      match alookup k xs with
      | some v => some v
      | none => alookup k ys := by
  induction xs with
  | nil => simp [alookup]
  | cons hd tl ih =>
    by_cases h : hd.1 = k
    · simp [alookup, h]
    · simp [alookup, h, ih]

theorem alookup_optStr (k k2 : String) (v : Option String) :
    alookup k (optStr k2 v) = if k2 = k then v else none := by
  cases v <;> by_cases h : k2 = k <;> simp [optStr, alookup, h]

theorem alookup_optInt (k k2 : String) (v : Option Int) :
    alookup k (optInt k2 v) = if k2 = k then v.map toString else none := by
  cases v <;> by_cases h : k2 = k <;> simp [optInt, alookup, h]

theorem alookup_serializeConfig_ssh_pass_hash (c : Config) :
    alookup "ssh_pass_hash" (serializeConfig c) = c.ssh_pass_hash := by
  cases h : c.ssh_pass_hash <;>
    simp [serializeConfig, alookup_append, alookup_optStr, alookup_optInt, h]

theorem alookup_serializeConfig_password (c : Config) :
    alookup "password" (serializeConfig c) = c.password := by
  cases h : c.password <;>
    simp [serializeConfig, alookup_append, alookup_optStr, alookup_optInt, h]

theorem alookup_serializeConfig_password_hash (c : Config) :
    alookup "password_hash" (serializeConfig c) = c.password_hash := by
  cases h : c.password_hash <;>
    simp [serializeConfig, alookup_append, alookup_optStr, alookup_optInt, h]

theorem alookup_setNetifEnabled_self (name : String) (v : Bool) (t : Netif) :
    alookup name (setNetifEnabled name v t) =
      (alookup name t).map (fun e => { e with enabled := v }) := by
  induction t with
  | nil => rfl
  | cons hd tl ih =>
    obtain ⟨k2, e⟩ := hd
    simp only [setNetifEnabled, List.map_cons] at ih ⊢
    by_cases h : k2 = name
    · subst h
      simp [alookup]
    · simp [alookup, h, ih]

theorem alookup_setNetifEnabled_ne (k name : String) (v : Bool) (t : Netif)
    (h : name ≠ k) :
    alookup k (setNetifEnabled name v t) = alookup k t := by
  induction t with
  | nil => rfl
  | cons hd tl ih =>
    obtain ⟨k2, e⟩ := hd
    simp only [setNetifEnabled, List.map_cons] at ih ⊢
    by_cases h3 : k2 = k
    · subst h3
      simp [alookup, Ne.symm h]
    · simp [alookup, h3, ih]

/-! ### Claim theorems -/

/-- C2: `setBitrate({max_br: b})` returns null and leaves the config and
the bitrate file untouched when `b` is absent or outside 300..12000;
otherwise it sets `config.max_br` to `b`, persists the config, rewrites
the bitrate file to exactly the lines `300000\n` and `b*1000` followed by
`\n`, and only then signals the encoder by name with a hangup —
persistence strictly before the signal — and returns `b`. -/
theorem setBitrate_spec (mb : Option Int) (st : Daemon) :
    ((mb = none ∨ ∃ b, mb = some b ∧ (b < 300 ∨ b > 12000)) →
      setBitrate mb st = (none, st))
  ∧ (∀ b, mb = some b → 300 ≤ b → b ≤ 12000 →
      setBitrate mb st =
        (some b,
         { config := { st.config with max_br := some b, ssh_pass_hash := none }
           sshPasswordHash := st.sshPasswordHash
           effects := st.effects ++
             [Effect.configWrite (serializeConfig
                { st.config with max_br := some b
                                 ssh_pass_hash := st.sshPasswordHash }),
              Effect.writeBitrateFile
                ("300000\n" ++ toString (b * 1000) ++ "\n"),
              Effect.signal "belacoder" "SIGHUP"] })) := by
  constructor
  · rintro (h | ⟨b, rfl, hb⟩)
    · subst h; rfl
    · simp only [setBitrate]
      rw [if_pos hb]
  · rintro b rfl h1 h2
    simp only [setBitrate]
    rw [if_neg (by omega)]
    rfl

/-- C2 witness: a concrete accepted call, `setBitrate({max_br: 6000})` on
an empty config. -/
theorem setBitrate_spec_witness :
    setBitrate (some 6000) ⟨{}, none, []⟩ =
      (some 6000,
       ⟨{ max_br := some 6000 }, none,
        [Effect.configWrite [("max_br", "6000")],
         Effect.writeBitrateFile "300000\n6000000\n",
         Effect.signal "belacoder" "SIGHUP"]⟩) := by
  have h := (setBitrate_spec (some 6000) ⟨{}, none, []⟩).2 6000 rfl
    (by norm_num) (by norm_num)
  rw [h]
  rfl

/-- C9: the in-memory config never carries `ssh_pass_hash`: loading strips
it, `saveConfig` removes it again before returning, the document written
to disk includes it, and any serialisation of an in-memory config (as in
every `config` message) omits the key. -/
theorem ssh_pass_hash_in_memory (disk c : Config) (sshHash : Option String)
    (h : String) :
    (loadConfig disk).1.ssh_pass_hash = none
  ∧ (saveConfig c sshHash).2.ssh_pass_hash = none
  ∧ alookup "ssh_pass_hash" (saveConfig c (some h)).1 = some h
  ∧ (c.ssh_pass_hash = none →
      alookup "ssh_pass_hash" (serializeConfig c) = none) := by
  refine ⟨rfl, rfl, ?_, ?_⟩
  · show alookup "ssh_pass_hash"
      (serializeConfig { c with ssh_pass_hash := some h }) = some h
    rw [alookup_serializeConfig_ssh_pass_hash]
  · intro hc
    rw [alookup_serializeConfig_ssh_pass_hash, hc]

/-- C9 witness: a concrete config document round trip. -/
theorem ssh_pass_hash_in_memory_witness :
    (loadConfig { remote_key := some "k1", ssh_pass_hash := some "h1" }).1.ssh_pass_hash = none
  ∧ (saveConfig { remote_key := some "k1" } (some "h1")).2.ssh_pass_hash = none
  ∧ alookup "ssh_pass_hash" (saveConfig { remote_key := some "k1" } (some "h1")).1 = some "h1"
  ∧ alookup "ssh_pass_hash" (serializeConfig { remote_key := some "k1" }) = none := by
  have h := ssh_pass_hash_in_memory
    { remote_key := some "k1", ssh_pass_hash := some "h1" }
    { remote_key := some "k1" } (some "h1") "h1"
  exact ⟨h.1, h.2.1, h.2.2.1, h.2.2.2 rfl⟩

/-- C8: a key rejection from the relay broadcasts the key error exactly
once, terminates the tunnel, and marks `remoteStatusHandled` so that the
following close broadcasts no network error; a close with the flag clear
broadcasts the network error and schedules a reconnect in 1 s. -/
theorem remote_key_error_spec (s : RemoteState)
    (hs : s.statusHandled = false) :
    ((handleRemoteAuthEncoder s false).2.filter
        (fun e => e == Effect.broadcastRemoteError "key")).length = 1
  ∧ Effect.terminateRemote ∈ (handleRemoteAuthEncoder s false).2
  ∧ (handleRemoteAuthEncoder s false).1.statusHandled = true
  ∧ (remoteClose (handleRemoteAuthEncoder s false).1).2 =
      [Effect.scheduleReconnect 1000]
  ∧ (remoteClose s).2 =
      [Effect.scheduleReconnect 1000, Effect.broadcastRemoteError "network"] := by
  refine ⟨?_, ?_, ?_, ?_, ?_⟩ <;>
    simp [handleRemoteAuthEncoder, remoteClose, hs]

/-- C8 witness: the fresh tunnel state set up by `remoteConnect`. -/
theorem remote_key_error_spec_witness :
    ((handleRemoteAuthEncoder ⟨false, false⟩ false).2.filter
        (fun e => e == Effect.broadcastRemoteError "key")).length = 1
  ∧ Effect.terminateRemote ∈ (handleRemoteAuthEncoder ⟨false, false⟩ false).2
  ∧ (handleRemoteAuthEncoder ⟨false, false⟩ false).1.statusHandled = true
  ∧ (remoteClose (handleRemoteAuthEncoder ⟨false, false⟩ false).1).2 =
      [Effect.scheduleReconnect 1000]
  ∧ (remoteClose ⟨false, false⟩).2 =
      [Effect.scheduleReconnect 1000, Effect.broadcastRemoteError "network"] :=
  remote_key_error_spec ⟨false, false⟩ rfl

/-- C6: a password-set request is honoured exactly when the connection is
authenticated, or no password is configured and the request is not from
the remote tunnel; a permitted short password only emits the
minimum-length error notification and leaves the config unchanged; a
permitted password of length at least 8 stores the bcrypt hash at cost 10
in `password_hash` and persists the config. -/
theorem setPassword_spec (authed isRemote : Bool) (conn : Nat) (pw : String)
    (c : Config) (sshHash : Option String) :
    (¬(authed = true ∨ (isRemote = false ∧ c.password_hash = none)) →
       setPassword authed isRemote conn pw c sshHash = (c, []))
  ∧ ((authed = true ∨ (isRemote = false ∧ c.password_hash = none)) →
       (pw.length < 8 →
          setPassword authed isRemote conn pw c sshHash =
            (c, [Effect.notifyConn conn "belaui_pass_length" "error"
                   "Minimum password length: 8 characters" 10]))
     ∧ (8 ≤ pw.length →
          setPassword authed isRemote conn pw c sshHash =
            ({ c with password_hash := some (bcryptHashSync pw BCRYPT_ROUNDS)
                      password := none
                      ssh_pass_hash := none },
             [Effect.configWrite (serializeConfig
                { c with password_hash := some (bcryptHashSync pw BCRYPT_ROUNDS)
                         password := none
                         ssh_pass_hash := sshHash })]))) := by
  constructor
  · intro h
    simp only [setPassword]
    rw [if_neg h]
  · intro h
    constructor
    · intro hlen
      simp only [setPassword]
      rw [if_pos h, if_pos hlen]
    · intro hlen
      simp only [setPassword]
      rw [if_pos h, if_neg (by omega)]
      rfl

/-- C6 witness: a first-run local password set with a valid password. -/
theorem setPassword_spec_witness :
    setPassword false false 1 "hunter2x" {} none =
      ({ password_hash := some (bcryptHashSync "hunter2x" BCRYPT_ROUNDS) },
       [Effect.configWrite
          [("password_hash", bcryptHashSync "hunter2x" BCRYPT_ROUNDS)]]) := by
  have h := ((setPassword_spec false false 1 "hunter2x" {} none).2
    (Or.inr ⟨rfl, rfl⟩)).2 (by decide)
  rw [h]
  rfl

/-- C10: a successful password set leaves no plaintext `password` key: the
resulting in-memory config has no `password` property and holds the
bcrypt hash, and the document persisted to disk likewise carries only the
hash. -/
theorem setPassword_no_plaintext (authed isRemote : Bool) (conn : Nat)
    (pw : String) (c : Config) (sshHash : Option String)
    (hperm : authed = true ∨ (isRemote = false ∧ c.password_hash = none))
    (hlen : 8 ≤ pw.length) :
    (setPassword authed isRemote conn pw c sshHash).1.password = none
  ∧ (setPassword authed isRemote conn pw c sshHash).1.password_hash =
      some (bcryptHashSync pw BCRYPT_ROUNDS)
  ∧ ∃ doc, (setPassword authed isRemote conn pw c sshHash).2 =
        [Effect.configWrite doc]
      ∧ alookup "password" doc = none
      ∧ alookup "password_hash" doc = some (bcryptHashSync pw BCRYPT_ROUNDS) := by
  have hred : setPassword authed isRemote conn pw c sshHash =
      ({ c with password_hash := some (bcryptHashSync pw BCRYPT_ROUNDS)
                password := none
                ssh_pass_hash := none },
       [Effect.configWrite (serializeConfig
          { c with password_hash := some (bcryptHashSync pw BCRYPT_ROUNDS)
                   password := none
                   ssh_pass_hash := sshHash })]) := by
    simp only [setPassword]
    rw [if_pos hperm, if_neg (by omega)]
    rfl
  rw [hred]
  refine ⟨rfl, rfl, _, rfl, ?_, ?_⟩
  · rw [alookup_serializeConfig_password]
  · rw [alookup_serializeConfig_password_hash]

/-- C10 witness: the same concrete first-run password set, evaluated. -/
theorem setPassword_no_plaintext_witness :
    (setPassword false false 1 "hunter2x" {} none).1.password = none
  ∧ (setPassword false false 1 "hunter2x" {} none).1.password_hash =
      some (bcryptHashSync "hunter2x" BCRYPT_ROUNDS)
  ∧ ∃ doc, (setPassword false false 1 "hunter2x" {} none).2 =
        [Effect.configWrite doc]
      ∧ alookup "password" doc = none
      ∧ alookup "password_hash" doc =
          some (bcryptHashSync "hunter2x" BCRYPT_ROUNDS) :=
  setPassword_no_plaintext false false 1 "hunter2x" {} none
    (Or.inr ⟨rfl, rfl⟩) (by decide)

/-- C5 as amended: token auth succeeds iff a password hash is configured
and the token is in the transient or the persistent set; with a hash
configured, success marks the connection authenticated and failure sends
an auth-failure frame; with no hash configured every token is refused. -/
theorem tryAuthToken_spec (hash : Option String)
    (temps perms : List String) (conn : Nat) (token : String) :
    (hash = none →
       tryAuthToken hash temps perms conn token =
         (false, [Effect.sendAuth conn false]))
  ∧ (∀ h, hash = some h →
       (((tryAuthToken hash temps perms conn token).1 = true) ↔
          (token ∈ temps ∨ token ∈ perms))
     ∧ (token ∈ temps ∨ token ∈ perms →
          tryAuthToken hash temps perms conn token =
            (true, [Effect.sendAuth conn true, Effect.sendInitialStatus conn]))
     ∧ (¬(token ∈ temps ∨ token ∈ perms) →
          tryAuthToken hash temps perms conn token =
            (false, [Effect.sendAuth conn false]))) := by
  constructor
  · rintro rfl
    rfl
  · rintro h rfl
    refine ⟨?_, ?_, ?_⟩
    · by_cases hm : token ∈ temps ∨ token ∈ perms
      · simp [tryAuthToken, hm]
      · simp [tryAuthToken, hm]
    · intro hm
      simp [tryAuthToken, hm]
    · intro hm
      simp [tryAuthToken, hm]

/-- C5 witness: with a configured hash, a persistent token authenticates
and an unknown token is refused. -/
theorem tryAuthToken_spec_witness :
    tryAuthToken (some "ph") [] ["tok1"] 0 "tok1" =
      (true, [Effect.sendAuth 0 true, Effect.sendInitialStatus 0])
  ∧ tryAuthToken (some "ph") [] ["tok1"] 0 "tok2" =
      (false, [Effect.sendAuth 0 false]) := by
  constructor
  · exact ((tryAuthToken_spec (some "ph") [] ["tok1"] 0 "tok1").2 "ph" rfl).2.1
      (Or.inr (by decide))
  · exact ((tryAuthToken_spec (some "ph") [] ["tok1"] 0 "tok2").2 "ph" rfl).2.2
      (by decide)

/-- C5 counterexample: with no password hash configured, a token that is
a member of the persistent set is still refused, so membership alone does
not authenticate. -/
theorem tryAuthToken_claim_counterexample :
    ("tok1" ∈ (["tok1"] : List String))
  ∧ tryAuthToken none [] ["tok1"] 0 "tok1" =
      (false, [Effect.sendAuth 0 false]) :=
  ⟨by decide, rfl⟩

/-- C3 counterexample: a table whose single entry is already disabled has
zero enabled interfaces after applying the disable, yet the request is
accepted without the `netif_disable_all` notification — the rejection
condition is not equivalent to "would leave zero enabled interfaces". -/
theorem handleNetif_claim_counterexample :
    countActiveNetif
        (setNetifEnabled "wlan0" false
          [("wlan0", ⟨"10.0.0.1", 0, 0, false⟩)]) = 0
  ∧ handleNetif false 1 [("wlan0", ⟨"10.0.0.1", 0, 0, false⟩)]
        "wlan0" "10.0.0.1" (some false) =
      ([("wlan0", ⟨"10.0.0.1", 0, 0, false⟩)], [Effect.sendNetif 1]) := by
  constructor
  · rfl
  · rfl

/-- C3 as amended: a `setEnabled(name, ip, false)` request is a no-op
unless name and ip both match; a matching disable is rejected (with the
`netif_disable_all` notification and unchanged flags) iff the entry is
currently enabled and it is the only enabled interface; otherwise the
entry's flag becomes false (with no notification), so a disable of an
already-disabled entry is accepted even when zero enabled entries
remain. -/
theorem handleNetif_disable_spec (isStr : Bool) (conn : Nat) (t : Netif)
    (name ip : String) :
    (alookup name t = none →
       handleNetif isStr conn t name ip (some false) = (t, []))
  ∧ (∀ int, alookup name t = some int →
       (int.ip ≠ ip → handleNetif isStr conn t name ip (some false) = (t, []))
     ∧ (int.ip = ip →
         ((int.enabled = true ∧ countActiveNetif t = 1) →
            handleNetif isStr conn t name ip (some false) =
              (t, [Effect.notifyConn conn "netif_disable_all" "error"
                     "Can\x27t disable all networks" 10,
                   Effect.sendNetif conn]))
       ∧ (¬(int.enabled = true ∧ countActiveNetif t = 1) →
            (handleNetif isStr conn t name ip (some false)).1 =
                setNetifEnabled name false t
            ∧ alookup name (handleNetif isStr conn t name ip (some false)).1 =
                some { int with enabled := false }
            ∧ (∀ k, k ≠ name →
                alookup k (handleNetif isStr conn t name ip (some false)).1 =
                  alookup k t)
            ∧ (∀ eff ∈ (handleNetif isStr conn t name ip (some false)).2,
                eff = Effect.sendNetif conn ∨
                eff = Effect.writeIpsFile
                        (genSrtlaIpList (setNetifEnabled name false t)).1 ∨
                eff = Effect.signal "srtla_send" "SIGHUP")))) := by
  constructor
  · intro h
    simp [handleNetif, h]
  · intro int hint
    constructor
    · intro hip
      simp [handleNetif, hint, hip]
    · intro hip
      constructor
      · intro hrej
        simp only [handleNetif, hint]
        rw [if_neg (by simp [hip]), if_pos (by simp [hrej.1, hrej.2])]
      · intro hacc
        have hred : handleNetif isStr conn t name ip (some false) =
            (setNetifEnabled name false t,
             (if isStr then
                [Effect.writeIpsFile
                   (genSrtlaIpList (setNetifEnabled name false t)).1,
                 Effect.signal "srtla_send" "SIGHUP"]
              else []) ++ [Effect.sendNetif conn]) := by
          simp only [handleNetif, hint]
          rw [if_neg (by simp [hip]), if_neg (by simpa using hacc)]
        rw [hred]
        refine ⟨rfl, ?_, ?_, ?_⟩
        · rw [alookup_setNetifEnabled_self, hint]
          rfl
        · intro k hk
          exact alookup_setNetifEnabled_ne k name false t (fun he => hk he.symm)
        · intro eff heff
          rcases isStr with _ | _
          · simp at heff
            simp [heff]
          · simp at heff
            rcases heff with h1 | h1 | h1 <;> simp [h1]

/-- C3 witness: with two enabled interfaces, disabling one is accepted;
with only one enabled interface, disabling it is rejected. -/
theorem handleNetif_disable_spec_witness :
    (handleNetif false 1
        [("eth0", ⟨"192.168.1.2", 0, 0, true⟩),
         ("wlan0", ⟨"10.0.0.1", 0, 0, true⟩)]
        "eth0" "192.168.1.2" (some false)).1 =
      [("eth0", ⟨"192.168.1.2", 0, 0, false⟩),
       ("wlan0", ⟨"10.0.0.1", 0, 0, true⟩)]
  ∧ handleNetif false 1 [("eth0", ⟨"192.168.1.2", 0, 0, true⟩)]
        "eth0" "192.168.1.2" (some false) =
      ([("eth0", ⟨"192.168.1.2", 0, 0, true⟩)],
       [Effect.notifyConn 1 "netif_disable_all" "error"
          "Can\x27t disable all networks" 10,
        Effect.sendNetif 1]) := by
  constructor
  · have h := (((handleNetif_disable_spec false 1
      [("eth0", ⟨"192.168.1.2", 0, 0, true⟩),
       ("wlan0", ⟨"10.0.0.1", 0, 0, true⟩)] "eth0" "192.168.1.2").2
      ⟨"192.168.1.2", 0, 0, true⟩ rfl).2 rfl).2 (by decide)
    exact h.1.trans (by rfl)
  · exact (((handleNetif_disable_spec false 1
      [("eth0", ⟨"192.168.1.2", 0, 0, true⟩)] "eth0" "192.168.1.2").2
      ⟨"192.168.1.2", 0, 0, true⟩ rfl).2 rfl).1 (by decide)

theorem alookup_updateNetifFold_notmem (prev : Netif) (obs : List Obs)
    (acc : Netif) (name : String) (h : name ∉ obs.map Obs.name) :
    alookup name
        (obs.foldl (fun a o => upsert o.name (updateNetifEntry prev o) a) acc) =
      alookup name acc := by
  induction obs generalizing acc with
  | nil => rfl
  | cons o rest ih =>
    simp only [List.map_cons, List.mem_cons] at h
    push_neg at h
    rw [List.foldl_cons, ih _ h.2]
    exact alookup_upsert_ne name o.name (updateNetifEntry prev o) acc
      (Ne.symm h.1)

theorem alookup_updateNetifFold_mem (prev : Netif) (obs : List Obs)
    (acc : Netif) (hnodup : (obs.map Obs.name).Nodup) (o : Obs)
    (ho : o ∈ obs) :
    alookup o.name
        (obs.foldl (fun a x => upsert x.name (updateNetifEntry prev x) a) acc) =
      some (updateNetifEntry prev o) := by
  revert hnodup ho
  induction obs generalizing acc with
  | nil =>
    intro _ ho
    exact absurd ho (List.not_mem_nil o)
  | cons x rest ih =>
    intro hnodup ho
    rw [List.foldl_cons]
    rcases List.mem_cons.mp ho with heq | hmem
    · subst heq
      have hnot : o.name ∉ rest.map Obs.name := by
        simp only [List.map_cons, List.nodup_cons] at hnodup
        exact hnodup.1
      rw [alookup_updateNetifFold_notmem prev rest _ o.name hnot]
      exact alookup_upsert_self o.name (updateNetifEntry prev o) acc
    · have h2 : (rest.map Obs.name).Nodup := by
        simp only [List.map_cons, List.nodup_cons] at hnodup
        exact hnodup.2
      exact ih _ h2 hmem

/-- C4 counterexample: a tx counter that went backwards between polls is
reported as a negative throughput, not clamped to `max(0, ...)` — the
source computes `txBytes - netif[name].txb` with no clamping. -/
theorem updateNetif_claim_counterexample :
    alookup "eth0" (updateNetifTable
        [("eth0", ⟨"10.0.0.1", 1000, 0, true⟩)]
        [⟨"eth0", "10.0.0.1", 500⟩]) =
      some ⟨"10.0.0.1", 500, -500, true⟩
  ∧ (-500 : Int) ≠ max 0 ((500 : Int) - 1000) :=
  ⟨rfl, by decide⟩

/-- C4 as amended: on each poll, an interface present at the previous
poll reports throughput `tx_now - tx_prev` (unclamped, possibly negative)
and keeps its previous enabled flag; an interface seen for the first time
reports throughput 0 and an enabled flag of true. -/
theorem updateNetif_throughput_spec (prev : Netif) (obs : List Obs)
    (hnodup : (obs.map Obs.name).Nodup) (o : Obs) (ho : o ∈ obs) :
    ∃ e, alookup o.name (updateNetifTable prev obs) = some e
      ∧ e.ip = o.ip ∧ e.txb = o.txb
      ∧ (∀ p, alookup o.name prev = some p →
          e.tp = o.txb - p.txb ∧ e.enabled = p.enabled)
      ∧ (alookup o.name prev = none → e.tp = 0 ∧ e.enabled = true) := by
  refine ⟨updateNetifEntry prev o, ?_, rfl, rfl, ?_, ?_⟩
  · exact alookup_updateNetifFold_mem prev obs [] hnodup o ho
  · intro p hp
    constructor <;> simp [updateNetifEntry, hp]
  · intro hp
    constructor <;> simp [updateNetifEntry, hp]

/-- C4 witness: a concrete poll where a previously seen interface gets the
tx delta with its disabled flag preserved. -/
theorem updateNetif_throughput_spec_witness :
    alookup "eth0" (updateNetifTable
        [("eth0", ⟨"10.0.0.1", 1000, 0, false⟩)]
        [⟨"eth0", "10.0.0.1", 1500⟩, ⟨"wlan0", "10.0.0.2", 7⟩]) =
      some ⟨"10.0.0.1", 1500, 500, false⟩ := by
  obtain ⟨e, he, -, -, -, -⟩ := updateNetif_throughput_spec
    [("eth0", ⟨"10.0.0.1", 1000, 0, false⟩)]
    [⟨"eth0", "10.0.0.1", 1500⟩, ⟨"wlan0", "10.0.0.2", 7⟩]
    (by decide) ⟨"eth0", "10.0.0.1", 1500⟩ (by decide)
  have h2 : some e = some (⟨"10.0.0.1", 1500, 500, false⟩ : NetifEntry) :=
    he.symm.trans (by rfl)
  exact he.trans h2

/-- C7: a persistent notification sent to a specific connection is
rejected with no stored or emitted effect; for broadcast sends, a second
send of the same name less than 1 s after the first emission is
suppressed but still refreshes `updated`, and a third send at least 1 s
after the last emission emits again; `last_sent` changes only on sends
that emit. -/
theorem notification_rate_limit_spec (pns0 : PNMap) (c : Nat)
    (name ntype msg : String) (dur : Nat) (dis : Bool) (t0 t1 t2 : Nat)
    (hfresh : alookup name pns0 = none)
    (h01 : t1 < t0 + 1000) (h02 : t0 + 1000 ≤ t2) :
    (∀ (pns : PNMap) (now : Nat),
       notificationSend now pns (some c) name ntype msg dur true dis =
         (pns, false, []))
  ∧ notificationSend t0 pns0 none name ntype msg dur true dis =
      (upsert name ⟨name, ntype, msg, dis, true, dur, t0, some t0⟩ pns0,
       true, [Effect.notifyBroadcast name ntype msg dur])
  ∧ notificationSend t1
        (upsert name ⟨name, ntype, msg, dis, true, dur, t0, some t0⟩ pns0)
        none name ntype msg dur true dis =
      (upsert name ⟨name, ntype, msg, dis, true, dur, t1, some t0⟩
         (upsert name ⟨name, ntype, msg, dis, true, dur, t0, some t0⟩ pns0),
       false, [])
  ∧ notificationSend t2
        (upsert name ⟨name, ntype, msg, dis, true, dur, t1, some t0⟩
           (upsert name ⟨name, ntype, msg, dis, true, dur, t0, some t0⟩ pns0))
        none name ntype msg dur true dis =
      (upsert name ⟨name, ntype, msg, dis, true, dur, t2, some t2⟩
         (upsert name ⟨name, ntype, msg, dis, true, dur, t1, some t0⟩
            (upsert name ⟨name, ntype, msg, dis, true, dur, t0, some t0⟩ pns0)),
       true, [Effect.notifyBroadcast name ntype msg dur]) := by
  refine ⟨?_, ?_, ?_, ?_⟩
  · intro pns now
    simp [notificationSend]
  · simp [notificationSend, hfresh]
  · simp [notificationSend, alookup_upsert_self, h01]
  · have h2 : ¬(t2 < t0 + 1000) := by omega
    simp [notificationSend, alookup_upsert_self, h2]

/-- C7 witness: a concrete three-send scenario at times 0, 500 and
1000 ms on an initially empty persistent map. -/
theorem notification_rate_limit_spec_witness :
    notificationSend 0 [] (some 1) "n" "error" "m" 10 true true =
      ([], false, [])
  ∧ notificationSend 0 [] none "n" "error" "m" 10 true true =
      ([("n", ⟨"n", "error", "m", true, true, 10, 0, some 0⟩)], true,
       [Effect.notifyBroadcast "n" "error" "m" 10])
  ∧ notificationSend 500
        [("n", ⟨"n", "error", "m", true, true, 10, 0, some 0⟩)]
        none "n" "error" "m" 10 true true =
      ([("n", ⟨"n", "error", "m", true, true, 10, 500, some 0⟩)], false, [])
  ∧ notificationSend 1000
        [("n", ⟨"n", "error", "m", true, true, 10, 500, some 0⟩)]
        none "n" "error" "m" 10 true true =
      ([("n", ⟨"n", "error", "m", true, true, 10, 1000, some 1000⟩)], true,
       [Effect.notifyBroadcast "n" "error" "m" 10]) := by
  have h := notification_rate_limit_spec [] 1 "n" "error" "m" 10 true
    0 500 1000 rfl (by decide) (by decide)
  exact ⟨h.1 [] 0, h.2.1, h.2.2.1, h.2.2.2⟩

theorem setBitrate_invalid_eq (mb : Option Int) (st : Daemon)
    (h : mb = none ∨ ∃ b, mb = some b ∧ (b < 300 ∨ b > 12000)) :
    setBitrate mb st = (none, st) := by
  rcases h with h | ⟨b, rfl, hb⟩
  · subst h; rfl
  · simp only [setBitrate]
    rw [if_pos hb]

theorem setBitrate_valid_eq (b : Int) (st : Daemon)
    (h1 : 300 ≤ b) (h2 : b ≤ 12000) :
    setBitrate (some b) st =
      (some b,
       { config := { st.config with max_br := some b, ssh_pass_hash := none }
         sshPasswordHash := st.sshPasswordHash
         effects := st.effects ++
           [Effect.configWrite (serializeConfig
              { st.config with max_br := some b
                               ssh_pass_hash := st.sshPasswordHash }),
            Effect.writeBitrateFile ("300000\n" ++ toString (b * 1000) ++ "\n"),
            Effect.signal "belacoder" "SIGHUP"] }) := by
  simp only [setBitrate]
  rw [if_neg (by omega)]
  rfl

/-- C1 counterexample: a `start` request that fails SRT-latency
validation, after passing the bitrate check, leaves the request rejected
but the config changed, the bitrate file rewritten and a hangup already
sent to the encoder — not the unchanged state the claim asserts for every
validation failure. -/
theorem updateConfig_claim_counterexample :
    (updateConfig envEx 1 paramsLateFail stEx).1 = none
  ∧ (updateConfig envEx 1 paramsLateFail stEx).2.config ≠ stEx.config
  ∧ Effect.signal "belacoder" "SIGHUP" ∈
      (updateConfig envEx 1 paramsLateFail stEx).2.effects := by
  refine ⟨rfl, ?_, ?_⟩ <;> decide

/-- C1 as amended: a `start` request that fails validation or DNS
resolution emits only the 10-second `start_error` notification and the
`is_streaming:false` reply to the requester and never touches the
uplink-IP file; when the failure is at the delay, pipeline or bitrate
check the state is fully unchanged, but when a request with a valid
bitrate fails a later check (SRT latency, streamid, SRTLA address or
port, or DNS) the config has already been updated with the new `max_br`
and persisted, the bitrate file rewritten and a hangup sent to the
encoder by the embedded `setBitrate` call. -/
theorem updateConfig_failure_spec (env : Env) (conn : Nat) (p : StartParams)
    (st : Daemon) (h : (updateConfig env conn p st).1 = none) :
    (startEarlyFailure env p →
       ∃ msg, (updateConfig env conn p st).2 =
         { st with effects := st.effects ++
             [Effect.notifyConn conn "start_error" "error" msg 10,
              Effect.sendIsStreaming conn false] })
  ∧ (¬startEarlyFailure env p →
       ∃ msg b, p.max_br = some b ∧
         (updateConfig env conn p st).2 =
           { config := { st.config with max_br := some b, ssh_pass_hash := none }
             sshPasswordHash := st.sshPasswordHash
             effects := st.effects ++
               [Effect.configWrite (serializeConfig
                  { st.config with max_br := some b
                                   ssh_pass_hash := st.sshPasswordHash }),
                Effect.writeBitrateFile
                  ("300000\n" ++ toString (b * 1000) ++ "\n"),
                Effect.signal "belacoder" "SIGHUP",
                Effect.notifyConn conn "start_error" "error" msg 10,
                Effect.sendIsStreaming conn false] }) := by
  rcases hd : p.delay with _ | d
  · refine ⟨fun _ => ⟨"audio delay not specified", ?_⟩,
      fun hne => absurd (Or.inl hd) hne⟩
    simp [updateConfig, hd, startError]
  · by_cases hdr : d < -2000 ∨ d > 2000
    · refine ⟨fun _ => ⟨"invalid delay " ++ toString d, ?_⟩,
        fun hne => absurd (Or.inr (Or.inl ⟨d, hd, hdr⟩)) hne⟩
      simp only [updateConfig, hd]
      rw [if_pos hdr]
      simp [startError]
    · rcases hp : p.pipeline with _ | pl
      · refine ⟨fun _ => ⟨"pipeline not specified", ?_⟩,
          fun hne => absurd (Or.inr (Or.inr (Or.inl hp))) hne⟩
        simp only [updateConfig, hd, hp]
        rw [if_neg hdr]
        simp [startError]
      · rcases hpl : env.pipelines pl with _ | ppath
        · refine ⟨fun _ => ⟨"pipeline not found", ?_⟩,
            fun hne =>
              absurd (Or.inr (Or.inr (Or.inr (Or.inl ⟨pl, hp, hpl⟩)))) hne⟩
          simp only [updateConfig, hd, hp, hpl]
          rw [if_neg hdr]
          simp [startError]
        · by_cases hbr : p.max_br = none ∨
              ∃ b, p.max_br = some b ∧ (b < 300 ∨ b > 12000)
          · refine ⟨fun _ => ⟨"invalid bitrate range: ", ?_⟩,
              fun hne => ?_⟩
            · have hsb := setBitrate_invalid_eq p.max_br st hbr
              simp only [updateConfig, hd, hp, hpl, hsb]
              rw [if_neg hdr]
              simp [startError]
            · rcases hbr with h5 | ⟨b, hb, hbv⟩
              · exact absurd (Or.inr (Or.inr (Or.inr (Or.inr (Or.inl h5))))) hne
              · exact absurd
                  (Or.inr (Or.inr (Or.inr (Or.inr (Or.inr ⟨b, hb, hbv⟩))))) hne
          · push_neg at hbr
            rcases hmb : p.max_br with _ | b
            · exact absurd rfl (hmb ▸ hbr.1)
            · have hbb := hbr.2 b hmb
              have hb1 : 300 ≤ b := hbb.1
              have hb2 : b ≤ 12000 := hbb.2
              have hbv : ¬(b < 300 ∨ b > 12000) := by omega
              have hsb := setBitrate_valid_eq b st hb1 hb2
              have hnotearly : ¬startEarlyFailure env p := by
                rintro (h1 | ⟨d2, hd2, hdr2⟩ | h3 | ⟨pl2, hp2, henv2⟩ |
                  h5 | ⟨b2, hb2e, hbr2⟩)
                · rw [hd] at h1; exact Option.noConfusion h1
                · rw [hd] at hd2; injection hd2 with he; subst he
                  exact hdr hdr2
                · rw [hp] at h3; exact Option.noConfusion h3
                · rw [hp] at hp2; injection hp2 with he; subst he
                  rw [henv2] at hpl; exact Option.noConfusion hpl
                · rw [hmb] at h5; exact Option.noConfusion h5
                · rw [hmb] at hb2e; injection hb2e with he; subst he
                  exact hbv hbr2
              refine ⟨fun he => absurd he hnotearly, fun _ => ?_⟩
              rcases hlat : p.srt_latency with _ | lat
              · refine ⟨"SRT latency not specified", b, rfl, ?_⟩
                simp only [updateConfig, hd, hp, hpl, hmb, hsb, hlat]
                rw [if_neg hdr]
                simp [startError]
              · by_cases hlr : lat < 100 ∨ lat > 10000
                · refine ⟨"invalid SRT latency " ++ toString lat ++ " ms",
                    b, rfl, ?_⟩
                  simp only [updateConfig, hd, hp, hpl, hmb, hsb, hlat]
                  rw [if_neg hdr, if_pos hlr]
                  simp [startError]
                · rcases hsid : p.srt_streamid with _ | sid
                  · refine ⟨"SRT streamid not specified", b, rfl, ?_⟩
                    simp only [updateConfig, hd, hp, hpl, hmb, hsb, hlat, hsid]
                    rw [if_neg hdr, if_neg hlr]
                    simp [startError]
                  · rcases haddr : p.srtla_addr with _ | addr
                    · refine ⟨"SRTLA address not specified", b, rfl, ?_⟩
                      simp only [updateConfig, hd, hp, hpl, hmb, hsb, hlat,
                        hsid, haddr]
                      rw [if_neg hdr, if_neg hlr]
                      simp [startError]
                    · rcases hport : p.srtla_port with _ | port
                      · refine ⟨"SRTLA port not specified", b, rfl, ?_⟩
                        simp only [updateConfig, hd, hp, hpl, hmb, hsb, hlat,
                          hsid, haddr, hport]
                        rw [if_neg hdr, if_neg hlr]
                        simp [startError]
                      · by_cases hpr : port ≤ 0 ∨ port > 65535
                        · refine ⟨"invalid SRTLA port " ++ toString port,
                            b, rfl, ?_⟩
                          simp only [updateConfig, hd, hp, hpl, hmb, hsb, hlat,
                            hsid, haddr, hport]
                          rw [if_neg hdr, if_neg hlr, if_pos hpr]
                          simp [startError]
                        · rcases hdns : env.dnsOk addr with _ | _
                          · refine ⟨"failed to resolve SRTLA addr " ++ addr,
                              b, rfl, ?_⟩
                            simp only [updateConfig, hd, hp, hpl, hmb, hsb,
                              hlat, hsid, haddr, hport]
                            rw [if_neg hdr, if_neg hlr, if_neg hpr]
                            simp [hdns, startError]
                          · exfalso
                            have : (updateConfig env conn p st).1 =
                                some ppath := by
                              simp only [updateConfig, hd, hp, hpl, hmb, hsb,
                                hlat, hsid, haddr, hport]
                              rw [if_neg hdr, if_neg hlr, if_neg hpr]
                              simp [hdns]
                            rw [this] at h
                            exact Option.noConfusion h

/-- C1 witness: the concrete SRT-latency failure evaluated — the appended
trace is exactly the bitrate persistence, the bitrate-file write, the
encoder hangup, the notification and the status reply, with no uplink-IP
write. -/
theorem updateConfig_failure_spec_witness :
    (updateConfig envEx 1 paramsLateFail stEx).2 =
      ⟨{ max_br := some 5000 }, none,
       [Effect.configWrite [("max_br", "5000")],
        Effect.writeBitrateFile "300000\n5000000\n",
        Effect.signal "belacoder" "SIGHUP",
        Effect.notifyConn 1 "start_error" "error"
          "invalid SRT latency 50 ms" 10,
        Effect.sendIsStreaming 1 false]⟩ := by
  have hne : ¬startEarlyFailure envEx paramsLateFail := by
    simp [startEarlyFailure, envEx, paramsLateFail]
  obtain ⟨msg, b, hb, heq⟩ :=
    (updateConfig_failure_spec envEx 1 paramsLateFail stEx rfl).2 hne
  exact heq.trans (heq.symm.trans (by rfl))

end BelaUI
